import Mathlib

/-!
Verification of the chat-completion polling protocol and surrounding client
operations of the `openderisk_cli` package (files
`openderisk_cli/client/chat.py`, `openderisk_cli/client/http.py`,
`openderisk_cli/models/chat.py`, `openderisk_cli/exceptions.py`).

The embedding models Python JSON-like values (`PyVal`) with Python
truthiness, dictionary `.get` with defaults, and the client functions as
pure functions of the server's responses.  Time is modelled in whole
seconds: each `time.sleep(1)` in the polling loop advances the clock by
one second and network calls are instantaneous, so the loop's wall-clock
budget `timeout` becomes a fuel counter that starts after the initial
delay (the source takes `start_time = time.time()` after
`time.sleep(initial_delay)`).
-/

/-- A Python value as it appears in parsed JSON responses and request
payloads: `None`, booleans, integers, floats, strings, lists and
string-keyed dicts. -/
inductive PyVal where
  | none : PyVal
  | bool (b : Bool) : PyVal
  | int (n : Int) : PyVal
  | float (q : Rat) : PyVal
  | str (s : String) : PyVal
  | list (xs : List PyVal) : PyVal
  | dict (entries : List (String × PyVal)) : PyVal

/-- Python truthiness: `None`, `False`, `0`, `0.0`, `""`, `[]`, `{}` are
falsy, everything else is truthy. -/
def truthy : PyVal → Bool
  | PyVal.none => false
  | PyVal.bool b => b
  | PyVal.int n => decide (n ≠ 0)
  | PyVal.float q => decide (q ≠ 0)
  | PyVal.str s => decide (s ≠ "")
  | PyVal.list xs => !xs.isEmpty
  | PyVal.dict es => !es.isEmpty

/-- `d.get(key, dflt)` on a Python dict: first binding of `key`, else the
default.  (On the non-dict values reached in the client every `.get` is
applied to a dict, so the non-dict case is unreachable there.) -/
def pyGet (d : PyVal) (key : String) (dflt : PyVal) : PyVal :=
  match d with
  | PyVal.dict entries =>
      match entries.lookup key with
      | some v => v
      | Option.none => dflt
  | _ => dflt

/-- Python `v == "lit"` for a string literal: true exactly when `v` is that
string (comparing a non-string against a string literal is `False`). -/
def pyEqStr (v : PyVal) (lit : String) : Bool :=
  match v with
  | PyVal.str s => decide (s = lit)
  | _ => false

/-- Elements of a Python list value (iteration target). -/
def pyItems : PyVal → List PyVal
  | PyVal.list xs => xs
  | _ => []

/-- Outcome of one run of `ChatClient.chat_completions`: the generator
completes yielding `ys` (`chunks`), or raises `APIError` (`apiError`), or
raises `TimeoutError` (`timedOut`).  `polls` counts the GET
`/api/v1/chat/query` requests issued.  `APIError` and `TimeoutError` are
distinct exception classes in `exceptions.py`, modelled as distinct
constructors. -/
inductive ChatOutcome where
  | chunks (ys : List PyVal) (polls : Nat) : ChatOutcome
  | apiError (message : String) (response : PyVal) (polls : Nat) : ChatOutcome
  | timedOut (message : String) (suggestion : String) (polls : Nat) : ChatOutcome

/-- The `TimeoutError` suggestion text built at chat.py line 125. -/
def timeoutSuggestion (timeout : Nat) : String :=
  "The chat did not complete within " ++ toString timeout ++ " seconds."

/-- The polling loop of `chat_completions` (chat.py lines 95-126).
`poll i` is the parsed body of the `i`-th GET `/api/v1/chat/query`
response.  `fuel` is the remaining whole-second budget
(`timeout - (time.time() - start_time)`): the `while` guard admits another
iteration exactly when it is positive, every iteration that continues the
loop sleeps one second, and the iteration that returns or raises consumes
no time.  `retryCount` and `polls` mirror `retry_count` and the number of
queries issued so far. -/
def pollLoop (poll : Nat → PyVal) (maxRetries : Nat) (sugg : String) :
    Nat → Nat → Nat → ChatOutcome
  | 0, _, polls => ChatOutcome.timedOut "Chat timed out" sugg polls
  | fuel + 1, retryCount, polls =>
      if truthy (pyGet (poll polls) "success" PyVal.none) = false then
        if pyEqStr (pyGet (poll polls) "code" (PyVal.str "")) "E0103" = true ∧
            retryCount < maxRetries then
          pollLoop poll maxRetries sugg fuel (retryCount + 1) (polls + 1)
        else
          ChatOutcome.apiError "Failed to query chat status" (poll polls) (polls + 1)
      else
        if truthy (pyGet (pyGet (poll polls) "data" (PyVal.dict []))
            "is_final" (PyVal.bool false)) = true then
          if truthy (pyGet (pyGet (poll polls) "data" (PyVal.dict []))
              "user_answer" (PyVal.str "")) = true then
            ChatOutcome.chunks
              [pyGet (pyGet (poll polls) "data" (PyVal.dict [])) "user_answer" (PyVal.str "")]
              (polls + 1)
          else
            ChatOutcome.chunks [] (polls + 1)
        else
          pollLoop poll maxRetries sugg fuel retryCount (polls + 1)

/-- `ChatClient.chat_completions` (chat.py lines 22-126) as a function of
the parsed submit response and the stream of parsed poll responses.
`initialDelay` is slept before `start_time` is taken, so it does not
consume any of the `timeout` budget and cannot affect the outcome. -/
def chat_completions (submitResp : PyVal) (poll : Nat → PyVal)
    (timeout maxRetries : Nat) (initialDelay : Nat) : ChatOutcome :=
  if truthy (pyGet submitResp "success" PyVal.none) = false then
    ChatOutcome.apiError "Failed to submit chat" submitResp 0
  else
    if truthy (pyGet (pyGet submitResp "data" (PyVal.dict [])) "conv_id" PyVal.none)
        = false then
      ChatOutcome.apiError "No conv_id in response" submitResp 0
    else
      pollLoop poll maxRetries (timeoutSuggestion timeout) timeout 0 0

/-- A poll response whose `success` flag is falsy and whose `code` equals
the transient sentinel `"E0103"` (chat.py lines 103-105). -/
def isTransientNotFound (resp : PyVal) : Prop :=
  truthy (pyGet resp "success" PyVal.none) = false ∧
  pyEqStr (pyGet resp "code" (PyVal.str "")) "E0103" = true

/-- A successful poll response that is not final (chat.py lines 112-113). -/
def isPending (resp : PyVal) : Prop :=
  truthy (pyGet resp "success" PyVal.none) = true ∧
  truthy (pyGet (pyGet resp "data" (PyVal.dict [])) "is_final" (PyVal.bool false)) = false

/-- A successful poll response that is final, whose extracted
`user_answer` (with default `""`) is `ans`. -/
def isFinalWith (resp : PyVal) (ans : PyVal) : Prop :=
  truthy (pyGet resp "success" PyVal.none) = true ∧
  truthy (pyGet (pyGet resp "data" (PyVal.dict [])) "is_final" (PyVal.bool false)) = true ∧
  pyGet (pyGet resp "data" (PyVal.dict [])) "user_answer" (PyVal.str "") = ans

/-- A submit response accepted by `chat_completions`: truthy `success`
and a truthy `conv_id` in its data. -/
def submitAccepted (resp : PyVal) : Prop :=
  truthy (pyGet resp "success" PyVal.none) = true ∧
  truthy (pyGet (pyGet resp "data" (PyVal.dict [])) "conv_id" PyVal.none) = true

/-- A concrete submit response carrying a `conv_id`. -/
def submitOk : PyVal :=
  PyVal.dict [("success", PyVal.bool true),
    ("data", PyVal.dict [("conv_id", PyVal.str "c1")])]

/-- A concrete transient "session not found" poll response. -/
def e0103Resp : PyVal :=
  PyVal.dict [("success", PyVal.bool false), ("code", PyVal.str "E0103"),
    ("err_msg", PyVal.str "session not found")]

/-- A concrete successful, not-yet-final poll response. -/
def pendingResp : PyVal :=
  PyVal.dict [("success", PyVal.bool true),
    ("data", PyVal.dict [("is_final", PyVal.bool false)])]

/-- A concrete final poll response with answer `ans`. -/
def finalResp (ans : String) : PyVal :=
  PyVal.dict [("success", PyVal.bool true),
    ("data", PyVal.dict [("is_final", PyVal.bool true),
      ("user_answer", PyVal.str ans)])]

/-- A concrete final poll response with no `user_answer` field. -/
def finalEmptyResp : PyVal :=
  PyVal.dict [("success", PyVal.bool true),
    ("data", PyVal.dict [("is_final", PyVal.bool true)])]

/-- Python `"".join(chunks)`: the concatenation in order when every chunk
is a string, `Option.none` when some chunk is not a string (a `TypeError`
in Python). -/
def pyStrJoin : List PyVal → Option String
  | [] => some ""
  | PyVal.str s :: rest => Option.map (fun t => s ++ t) (pyStrJoin rest)
  | _ :: _ => Option.none

/-- Outcome of `ChatClient.chat_async`: the joined response text, a
`TypeError` from joining a non-string chunk, or the propagated
`APIError`/`TimeoutError` from `chat_completions`. -/
inductive AsyncOutcome where
  | ok (text : String) : AsyncOutcome
  | joinTypeError : AsyncOutcome
  | apiError (message : String) (response : PyVal) : AsyncOutcome
  | timedOut (message : String) (suggestion : String) : AsyncOutcome

/-- Draining the generator into `"".join(result_chunks)`
(chat.py lines 148-159). -/
def joinChunks (ys : List PyVal) : AsyncOutcome :=
  match pyStrJoin ys with
  | some s => AsyncOutcome.ok s
  | Option.none => AsyncOutcome.joinTypeError

/-- `ChatClient.chat_async` (chat.py lines 128-159): drives
`chat_completions` with its default `max_retries = 10` and
`initial_delay = 2.0`, accumulates every yielded chunk in order and
returns the joined string. -/
def chat_async (submitResp : PyVal) (poll : Nat → PyVal) (timeout : Nat) :
    AsyncOutcome :=
  match chat_completions submitResp poll timeout 10 2 with
  | ChatOutcome.chunks ys _ => joinChunks ys
  | ChatOutcome.apiError m r _ => AsyncOutcome.apiError m r
  | ChatOutcome.timedOut m s _ => AsyncOutcome.timedOut m s

/-- The poll feed of the spec's end-to-end scenario: first poll pending,
second poll final with answer `"Hello!"`. -/
def pollHello : Nat → PyVal :=
  fun i => if i = 0 then pendingResp else finalResp "Hello!"

/-- The exception taxonomy of `exceptions.py`: `ConfigError`, `APIError`,
`ValidationError` and `TimeoutError`, all subclasses of `OpenDeriskError`
carrying message, optional details and optional suggestion; `APIError`
additionally carries an optional status code and the raw response dict
(defaulting to `{}`). -/
inductive OpenDeriskErr where
  | configError (message : String) (details suggestion : Option String) : OpenDeriskErr
  | apiError (message : String) (statusCode : Option Nat) (response : PyVal)
      (details suggestion : Option String) : OpenDeriskErr
  | validationError (message : String) (details suggestion : Option String) : OpenDeriskErr
  | timeoutErr (message : String) (details suggestion : Option String) : OpenDeriskErr

/-- Whether an exception is (an instance of) the `APIError` class. -/
def isApiErrorExc : OpenDeriskErr → Bool
  | OpenDeriskErr.apiError _ _ _ _ _ => true
  | _ => false

/-- An HTTP exchange that produced a response: its status code, body text
(`response.text`, empty iff `response.content` is empty), the JSON parse
of the body (`Option.none` when it raises `JSONDecodeError`) and, for
non-2xx responses, the text of the `httpx.HTTPStatusError` (`str(e)`). -/
structure HttpResponse where
  status : Nat
  text : String
  parsed : Option PyVal
  statusErrText : String

/-- What the underlying `httpx` request did: raised a connection-level
`httpx.RequestError` with the given text, or produced a response. -/
inductive TransportOutcome where
  | requestError (errText : String) : TransportOutcome
  | got (r : HttpResponse) : TransportOutcome

/-- `OpenDeriskHttpClient._safe_parse_json` (http.py lines 112-117): the
parsed JSON body, falling back to `{"text": raw_text}`. -/
def safe_parse_json (r : HttpResponse) : PyVal :=
  match r.parsed with
  | some v => v
  | Option.none => PyVal.dict [("text", PyVal.str r.text)]

/-- `OpenDeriskHttpClient._make_request` (http.py lines 48-110) as a
function of the transport outcome: `raise_for_status` raises
`httpx.HTTPStatusError` exactly on a non-2xx status — 1xx and 3xx
included, since the client leaves redirect following disabled — an empty
success body becomes `{}`, an unparsable non-empty success body raises
`APIError` ("Server returned invalid JSON response"), a connection-level
`httpx.RequestError` becomes `APIError` ("Network error"). -/
def make_request (o : TransportOutcome) : Except OpenDeriskErr PyVal :=
  match o with
  | TransportOutcome.requestError errText =>
      Except.error (OpenDeriskErr.apiError "Network error" Option.none
        (PyVal.dict []) (some errText)
        (some "Check your network connection and try again"))
  | TransportOutcome.got r =>
      if r.status < 200 ∨ 300 ≤ r.status then
        Except.error (OpenDeriskErr.apiError
          ("API request failed: " ++ toString r.status) (some r.status)
          (safe_parse_json r) (some r.statusErrText)
          (some "Check your request parameters and try again"))
      else if r.text = "" then
        Except.ok (PyVal.dict [])
      else
        match r.parsed with
        | some v => Except.ok v
        | Option.none =>
            Except.error (OpenDeriskErr.apiError
              "Server returned invalid JSON response" Option.none (PyVal.dict [])
              (some ("Response content: " ++ String.take r.text 200))
              (some "Please check if the server is running properly"))

mutual

/-- Python `==` on values (a type-strict model: the claims compare only
values of equal Python type, so Python's numeric cross-type equalities
are not needed). -/
def PyVal.beq : PyVal → PyVal → Bool
  | PyVal.none, PyVal.none => true
  | PyVal.bool a, PyVal.bool b => a == b
  | PyVal.int a, PyVal.int b => a == b
  | PyVal.float a, PyVal.float b => a == b
  | PyVal.str a, PyVal.str b => a == b
  | PyVal.list xs, PyVal.list ys => PyVal.beqList xs ys
  | PyVal.dict xs, PyVal.dict ys => PyVal.beqDict xs ys
  | _, _ => false

def PyVal.beqList : List PyVal → List PyVal → Bool
  | [], [] => true
  | x :: xs, y :: ys => PyVal.beq x y && PyVal.beqList xs ys
  | _, _ => false

def PyVal.beqDict : List (String × PyVal) → List (String × PyVal) → Bool
  | [], [] => true
  | (k, v) :: xs, (l, w) :: ys => k == l && PyVal.beq v w && PyVal.beqDict xs ys
  | _, _ => false
end

/-- Python `v in seen` for the `seen_names` set, by value equality. -/
def pyMem (v : PyVal) (seen : List PyVal) : Bool :=
  seen.any (fun w => PyVal.beq v w)

/-- The accumulation loop of `ChatClient.list_models`
(chat.py lines 214-222): keep each healthy item whose `model_name` is
truthy and not seen yet, recording seen names.  `ModelInfo(**item)` is
modelled as the raw item dict. -/
def listModelsLoop : List PyVal → List PyVal → List PyVal
  | [], _ => []
  | item :: rest, seen =>
      if truthy (pyGet item "healthy" PyVal.none) = true then
        if truthy (pyGet item "model_name" PyVal.none) = true ∧
            pyMem (pyGet item "model_name" PyVal.none) seen = false then
          item :: listModelsLoop rest (pyGet item "model_name" PyVal.none :: seen)
        else
          listModelsLoop rest seen
      else
        listModelsLoop rest seen

/-- `ChatClient.list_models` (chat.py lines 205-223) as a function of the
parsed GET `/api/v2/serve/model/models` response. -/
def list_models (resp : PyVal) : List PyVal :=
  if truthy (pyGet resp "success" PyVal.none) = true ∧
      truthy (pyGet resp "data" PyVal.none) = true then
    listModelsLoop (pyItems (pyGet resp "data" PyVal.none)) []
  else []

/-- Deduplication by `model_name` keeping the first occurrence, written
after the spec's words ("list healthy models deduplicated by name keeping
the first occurrence in server-returned order") for comparison with
`list_models`. -/
def dedupFirstByName : List PyVal → List PyVal → List PyVal
  | [], _ => []
  | item :: rest, seen =>
      if pyMem (pyGet item "model_name" PyVal.none) seen = true then
        dedupFirstByName rest seen
      else
        item :: dedupFirstByName rest (pyGet item "model_name" PyVal.none :: seen)

/-- The spec-side description of `list_models`: the healthy entries,
deduplicated by `model_name`, first occurrence kept, in order. -/
def specHealthyModels (items : List PyVal) : List PyVal :=
  dedupFirstByName
    (items.filter (fun it => truthy (pyGet it "healthy" PyVal.none))) []

/-- `ChatClient.delete_conversation` (chat.py lines 161-174): the raw
`success` flag of the response, `False` when absent; never raises. -/
def delete_conversation (resp : PyVal) : PyVal :=
  pyGet resp "success" (PyVal.bool false)

/-- `ChatClient.stop_chat` (chat.py lines 225-238): the raw `success`
flag of the response, `False` when absent; never raises. -/
def stop_chat (resp : PyVal) : PyVal :=
  pyGet resp "success" (PyVal.bool false)

/-- `ChatClient.list_conversations` (chat.py lines 176-203) as a function
of the parsed response: the data items on a truthy `success` and truthy
`data`, else `[]`; never raises.  `ConversationResponse(**item)` is
modelled as the raw item dict. -/
def list_conversations (resp : PyVal) : List PyVal :=
  if truthy (pyGet resp "success" PyVal.none) = true ∧
      truthy (pyGet resp "data" PyVal.none) = true then
    pyItems (pyGet resp "data" PyVal.none)
  else []

/-- A concrete server response reporting failure. -/
def failResp : PyVal :=
  PyVal.dict [("success", PyVal.bool false), ("err_msg", PyVal.str "boom")]

/-- The pydantic model `ChatCompletionRequest` (models/chat.py lines
8-31).  `user_input` is `Union[str, Dict]` but the client always passes a
string; `temperature` is a float, carried as a rational since no claim
computes with it. -/
structure ChatCompletionRequest where
  conv_uid : Option String
  user_input : String
  messages : Option (List PyVal)
  app_code : Option String
  app_config_code : Option String
  team_mode : Option String
  user_name : Option String
  sys_code : Option String
  temperature : Option Rat
  max_new_tokens : Option Int
  model_name : Option String
  incremental : Bool
  select_param : Option PyVal
  prompt_code : Option String
  chat_in_params : Option (List PyVal)
  ext_info : Option (List (String × PyVal))
  work_mode : Option String

/-- Python `v or dflt` for an optional string: the default when `v` is
`None` or empty, else `v` itself. -/
def pyOrStr (v : Option String) (dflt : String) : String :=
  match v with
  | Option.none => dflt
  | some s => if s = "" then dflt else s

/-- The `ChatCompletionRequest(...)` construction performed by
`chat_completions` (chat.py lines 56-73): every keyword mirrors the
source call, in particular `user_name := user_name or "cli_user"` and
`work_mode := "async"`; `ext_info` keeps its pydantic default `{}`. -/
def buildChatRequest (user_input : String)
    (conv_uid app_code model_name : Option String)
    (temperature : Option Rat) (max_new_tokens : Option Int)
    (incremental : Bool) (user_name : Option String)
    (messages : Option (List PyVal)) : ChatCompletionRequest :=
  { conv_uid := conv_uid
    user_input := user_input
    messages := messages
    app_code := app_code
    app_config_code := Option.none
    team_mode := Option.none
    user_name := some (pyOrStr user_name "cli_user")
    sys_code := Option.none
    temperature := temperature
    max_new_tokens := max_new_tokens
    model_name := model_name
    incremental := incremental
    select_param := Option.none
    prompt_code := Option.none
    chat_in_params := Option.none
    ext_info := some []
    work_mode := some "async" }

/-- `request.model_dump(exclude_none=True)` (chat.py line 75): the
submitted JSON body, with every `None` field omitted, in field order. -/
def modelDump (r : ChatCompletionRequest) : PyVal :=
  PyVal.dict (List.filterMap id
    [ Option.map (fun s => ("conv_uid", PyVal.str s)) r.conv_uid,
      some ("user_input", PyVal.str r.user_input),
      Option.map (fun ms => ("messages", PyVal.list ms)) r.messages,
      Option.map (fun s => ("app_code", PyVal.str s)) r.app_code,
      Option.map (fun s => ("app_config_code", PyVal.str s)) r.app_config_code,
      Option.map (fun s => ("team_mode", PyVal.str s)) r.team_mode,
      Option.map (fun s => ("user_name", PyVal.str s)) r.user_name,
      Option.map (fun s => ("sys_code", PyVal.str s)) r.sys_code,
      Option.map (fun q => ("temperature", PyVal.float q)) r.temperature,
      Option.map (fun n => ("max_new_tokens", PyVal.int n)) r.max_new_tokens,
      Option.map (fun s => ("model_name", PyVal.str s)) r.model_name,
      some ("incremental", PyVal.bool r.incremental),
      Option.map (fun v => ("select_param", v)) r.select_param,
      Option.map (fun s => ("prompt_code", PyVal.str s)) r.prompt_code,
      Option.map (fun ps => ("chat_in_params", PyVal.list ps)) r.chat_in_params,
      Option.map (fun es => ("ext_info", PyVal.dict es)) r.ext_info,
      Option.map (fun s => ("work_mode", PyVal.str s)) r.work_mode ])

/-- "Exactly one of plain text input and structured messages is
populated", read off the claim: a non-empty `user_input` with no
`messages`, or an empty `user_input` with a `messages` list. -/
def populatedExactlyOne (r : ChatCompletionRequest) : Prop :=
  (r.user_input ≠ "" ∧ r.messages = Option.none) ∨
  (r.user_input = "" ∧ r.messages ≠ Option.none)

/-- The invariant asserted by the claim on constructed requests: exactly
one content source populated, and `max_new_tokens`, if present,
non-negative. -/
def requestClaimInvariant (r : ChatCompletionRequest) : Prop :=
  populatedExactlyOne r ∧ ∀ n, r.max_new_tokens = some n → 0 ≤ n

/-- A structured message, as in an OpenAI-compatible messages list. -/
def msgHi : PyVal :=
  PyVal.dict [("role", PyVal.str "user"), ("content", PyVal.str "hi")]

/-- A request constructed with both a non-empty text and a messages list,
and a negative `max_new_tokens` — `chat_completions` accepts and forwards
all of them unvalidated. -/
def reqBoth : ChatCompletionRequest :=
  buildChatRequest "hi" Option.none Option.none Option.none Option.none
    (some (-5)) true Option.none (some [msgHi])

/-- A healthy model entry named `"m"`, host `h1`. -/
def modelA : PyVal :=
  PyVal.dict [("model_name", PyVal.str "m"), ("healthy", PyVal.bool true),
    ("host", PyVal.str "h1")]

/-- A second healthy model entry with the same name `"m"`, host `h2`. -/
def modelB : PyVal :=
  PyVal.dict [("model_name", PyVal.str "m"), ("healthy", PyVal.bool true),
    ("host", PyVal.str "h2")]

/-- A model-list response carrying the duplicate-name feed. -/
def modelsResp : PyVal :=
  PyVal.dict [("success", PyVal.bool true),
    ("data", PyVal.list [modelA, modelB])]

theorem pollLoop_zero (poll : Nat → PyVal) (mr : Nat) (sugg : String) (rc polls : Nat) :
    pollLoop poll mr sugg 0 rc polls = ChatOutcome.timedOut "Chat timed out" sugg polls := rfl

theorem pollLoop_retry (poll : Nat → PyVal) (mr : Nat) (sugg : String)
    (fuel rc polls : Nat) (h1 : isTransientNotFound (poll polls)) (h2 : rc < mr) :
    pollLoop poll mr sugg (fuel + 1) rc polls
      = pollLoop poll mr sugg fuel (rc + 1) (polls + 1) := by
  obtain ⟨hs, hc⟩ := h1
  simp [pollLoop, hs, hc, h2]

theorem pollLoop_fail (poll : Nat → PyVal) (mr : Nat) (sugg : String)
    (fuel rc polls : Nat)
    (hs : truthy (pyGet (poll polls) "success" PyVal.none) = false)
    (h : pyEqStr (pyGet (poll polls) "code" (PyVal.str "")) "E0103" = false ∨ ¬ rc < mr) :
    pollLoop poll mr sugg (fuel + 1) rc polls
      = ChatOutcome.apiError "Failed to query chat status" (poll polls) (polls + 1) := by
  rcases h with h | h
  · simp [pollLoop, hs, h]
  · simp [pollLoop, hs, h]

theorem pollLoop_pending (poll : Nat → PyVal) (mr : Nat) (sugg : String)
    (fuel rc polls : Nat) (h : isPending (poll polls)) :
    pollLoop poll mr sugg (fuel + 1) rc polls
      = pollLoop poll mr sugg fuel rc (polls + 1) := by
  obtain ⟨hs, hf⟩ := h
  simp [pollLoop, hs, hf]

theorem pollLoop_final (poll : Nat → PyVal) (mr : Nat) (sugg : String)
    (fuel rc polls : Nat) (ans : PyVal) (h : isFinalWith (poll polls) ans)
    (ht : truthy ans = true) :
    pollLoop poll mr sugg (fuel + 1) rc polls
      = ChatOutcome.chunks [ans] (polls + 1) := by
  obtain ⟨hs, hf, ha⟩ := h
  simp [pollLoop, hs, hf, ha, ht]

theorem pollLoop_final_empty (poll : Nat → PyVal) (mr : Nat) (sugg : String)
    (fuel rc polls : Nat) (ans : PyVal) (h : isFinalWith (poll polls) ans)
    (ht : truthy ans = false) :
    pollLoop poll mr sugg (fuel + 1) rc polls
      = ChatOutcome.chunks [] (polls + 1) := by
  obtain ⟨hs, hf, ha⟩ := h
  simp [pollLoop, hs, hf, ha, ht]

/-- Consuming `k` consecutive transient-not-found responses advances the
retry counter, the poll index and the clock by `k`. -/
theorem pollLoop_retrySteps (poll : Nat → PyVal) (mr : Nat) (sugg : String) :
    ∀ (k fuel rc polls : Nat),
      (∀ j, j < k → isTransientNotFound (poll (polls + j))) →
      rc + k ≤ mr → k ≤ fuel →
      pollLoop poll mr sugg fuel rc polls
        = pollLoop poll mr sugg (fuel - k) (rc + k) (polls + k) := by
  intro k
  induction k with
  | zero => intro fuel rc polls _ _ _; simp
  | succ k ih =>
      intro fuel rc polls hk hrc hfuel
      obtain ⟨f, rfl⟩ : ∃ f, fuel = f + 1 := ⟨fuel - 1, by omega⟩
      rw [pollLoop_retry poll mr sugg f rc polls
        (by simpa using hk 0 (by omega)) (by omega)]
      rw [ih f (rc + 1) (polls + 1)
        (fun j hj => by
          have := hk (j + 1) (by omega)
          have harith : polls + (j + 1) = polls + 1 + j := by omega
          rwa [harith] at this)
        (by omega) (by omega)]
      have h1 : f - k = f + 1 - (k + 1) := by omega
      have h2 : rc + 1 + k = rc + (k + 1) := by omega
      have h3 : polls + 1 + k = polls + (k + 1) := by omega
      rw [h1, h2, h3]

/-- Consuming `m` consecutive pending responses advances the poll index
and the clock by `m` and leaves the retry counter unchanged. -/
theorem pollLoop_pendingSteps (poll : Nat → PyVal) (mr : Nat) (sugg : String) :
    ∀ (m fuel rc polls : Nat),
      (∀ j, j < m → isPending (poll (polls + j))) →
      m ≤ fuel →
      pollLoop poll mr sugg fuel rc polls
        = pollLoop poll mr sugg (fuel - m) rc (polls + m) := by
  intro m
  induction m with
  | zero => intro fuel rc polls _ _; simp
  | succ m ih =>
      intro fuel rc polls hm hfuel
      obtain ⟨f, rfl⟩ : ∃ f, fuel = f + 1 := ⟨fuel - 1, by omega⟩
      rw [pollLoop_pending poll mr sugg f rc polls (by simpa using hm 0 (by omega))]
      rw [ih f rc (polls + 1)
        (fun j hj => by
          have := hm (j + 1) (by omega)
          have harith : polls + (j + 1) = polls + 1 + j := by omega
          rwa [harith] at this)
        (by omega)]
      have h1 : f - m = f + 1 - (m + 1) := by omega
      have h3 : polls + 1 + m = polls + (m + 1) := by omega
      rw [h1, h3]

/-- If every poll response is pending the loop exhausts its whole budget,
issuing one poll per second of it, and raises `TimeoutError`. -/
theorem pollLoop_allPending (poll : Nat → PyVal) (mr : Nat) (sugg : String)
    (fuel rc polls : Nat) (h : ∀ j, isPending (poll j)) :
    pollLoop poll mr sugg fuel rc polls
      = ChatOutcome.timedOut "Chat timed out" sugg (polls + fuel) := by
  rw [pollLoop_pendingSteps poll mr sugg fuel fuel rc polls
    (fun j _ => h (polls + j)) (Nat.le_refl fuel)]
  simp [pollLoop_zero]

theorem chat_completions_poll (submitResp : PyVal) (poll : Nat → PyVal)
    (timeout maxRetries initialDelay : Nat) (hsub : submitAccepted submitResp) :
    chat_completions submitResp poll timeout maxRetries initialDelay
      = pollLoop poll maxRetries (timeoutSuggestion timeout) timeout 0 0 := by
  obtain ⟨hs, hc⟩ := hsub
  simp [chat_completions, hs, hc]

/-- C1: if the submit is accepted and the poll endpoint returns the
transient `E0103` failure exactly `k ≤ max_retries` times and then a
final response with non-empty answer `X` (all within the time budget),
the generator yields exactly the one chunk `X` and exactly `k + 1` poll
requests are issued. -/
theorem chat_completions_transient_then_final
    (submitResp : PyVal) (poll : Nat → PyVal)
    (timeout maxRetries initialDelay k : Nat) (X : String)
    (hsub : submitAccepted submitResp)
    (htrans : ∀ j, j < k → isTransientNotFound (poll j))
    (hfin : isFinalWith (poll k) (PyVal.str X))
    (hX : X ≠ "")
    (hkr : k ≤ maxRetries)
    (hkt : k < timeout) :
    chat_completions submitResp poll timeout maxRetries initialDelay
      = ChatOutcome.chunks [PyVal.str X] (k + 1) := by
  rw [chat_completions_poll submitResp poll timeout maxRetries initialDelay hsub]
  rw [pollLoop_retrySteps poll maxRetries (timeoutSuggestion timeout) k timeout 0 0
    (fun j hj => by simpa using htrans j hj) (by omega) (by omega)]
  obtain ⟨f, hf⟩ : ∃ f, timeout - k = f + 1 := ⟨timeout - k - 1, by omega⟩
  rw [hf]
  rw [pollLoop_final poll maxRetries (timeoutSuggestion timeout) f (0 + k) (0 + k)
    (PyVal.str X) (by simpa using hfin) (by simp [truthy, hX])]
  simp

theorem chat_completions_transient_then_final_witness :
    chat_completions submitOk (fun i => if i < 2 then e0103Resp else finalResp "X")
      300 10 2
      = ChatOutcome.chunks [PyVal.str "X"] 3 :=
  chat_completions_transient_then_final submitOk
    (fun i => if i < 2 then e0103Resp else finalResp "X") 300 10 2 2 "X"
    ⟨rfl, rfl⟩
    (fun j hj => by
      match j, hj with
      | 0, _ => exact ⟨rfl, rfl⟩
      | 1, _ => exact ⟨rfl, rfl⟩)
    ⟨rfl, rfl, rfl⟩
    (by decide) (by omega) (by omega)

/-- C2: if the transient `E0103` failure recurs beyond `max_retries`
(within the time budget), `chat_completions` raises `APIError`
("Failed to query chat status"), not `TimeoutError`, after exactly
`max_retries + 1` poll requests. -/
theorem chat_completions_retries_exhausted
    (submitResp : PyVal) (poll : Nat → PyVal)
    (timeout maxRetries initialDelay : Nat)
    (hsub : submitAccepted submitResp)
    (htrans : ∀ j, j ≤ maxRetries → isTransientNotFound (poll j))
    (hto : maxRetries < timeout) :
    chat_completions submitResp poll timeout maxRetries initialDelay
      = ChatOutcome.apiError "Failed to query chat status" (poll maxRetries)
          (maxRetries + 1) ∧
    ∀ m s p, chat_completions submitResp poll timeout maxRetries initialDelay
      ≠ ChatOutcome.timedOut m s p := by
  have hmain : chat_completions submitResp poll timeout maxRetries initialDelay
      = ChatOutcome.apiError "Failed to query chat status" (poll maxRetries)
          (maxRetries + 1) := by
    rw [chat_completions_poll submitResp poll timeout maxRetries initialDelay hsub]
    rw [pollLoop_retrySteps poll maxRetries (timeoutSuggestion timeout)
      maxRetries timeout 0 0
      (fun j hj => by simpa using htrans j (by omega)) (by omega) (by omega)]
    obtain ⟨f, hf⟩ : ∃ f, timeout - maxRetries = f + 1 :=
      ⟨timeout - maxRetries - 1, by omega⟩
    rw [hf]
    rw [pollLoop_fail poll maxRetries (timeoutSuggestion timeout) f
      (0 + maxRetries) (0 + maxRetries)
      (by simpa using (htrans maxRetries (Nat.le_refl maxRetries)).1)
      (Or.inr (by omega))]
    simp
  refine ⟨hmain, ?_⟩
  intro m s p h
  rw [hmain] at h
  exact ChatOutcome.noConfusion h

theorem chat_completions_retries_exhausted_witness :
    chat_completions submitOk (fun _ => e0103Resp) 300 1 2
      = ChatOutcome.apiError "Failed to query chat status" e0103Resp 2 ∧
    ∀ m s p, chat_completions submitOk (fun _ => e0103Resp) 300 1 2
      ≠ ChatOutcome.timedOut m s p :=
  chat_completions_retries_exhausted submitOk (fun _ => e0103Resp) 300 1 2
    ⟨rfl, rfl⟩ (fun _ _ => ⟨rfl, rfl⟩) (by omega)

/-- C3: if no final (and no failing) poll response ever arrives,
`chat_completions` raises `TimeoutError` once the wall-clock budget
`timeout` — counted from the end of the initial delay, which is slept
before `start_time` is taken and for any value of `initialDelay` — is
exhausted; the error's suggestion text names the configured timeout, and
the outcome is not an `APIError`. -/
theorem chat_completions_times_out
    (submitResp : PyVal) (poll : Nat → PyVal)
    (timeout maxRetries initialDelay : Nat)
    (hsub : submitAccepted submitResp)
    (hpend : ∀ j, isPending (poll j)) :
    chat_completions submitResp poll timeout maxRetries initialDelay
      = ChatOutcome.timedOut "Chat timed out" (timeoutSuggestion timeout) timeout ∧
    (∃ a b, timeoutSuggestion timeout = a ++ toString timeout ++ b) ∧
    ∀ m r p, chat_completions submitResp poll timeout maxRetries initialDelay
      ≠ ChatOutcome.apiError m r p := by
  have hmain : chat_completions submitResp poll timeout maxRetries initialDelay
      = ChatOutcome.timedOut "Chat timed out" (timeoutSuggestion timeout) timeout := by
    rw [chat_completions_poll submitResp poll timeout maxRetries initialDelay hsub]
    rw [pollLoop_allPending poll maxRetries (timeoutSuggestion timeout)
      timeout 0 0 hpend]
    simp
  refine ⟨hmain, ⟨"The chat did not complete within ", " seconds.", rfl⟩, ?_⟩
  intro m r p h
  rw [hmain] at h
  exact ChatOutcome.noConfusion h

theorem chat_completions_times_out_witness :
    chat_completions submitOk (fun _ => pendingResp) 3 10 2
      = ChatOutcome.timedOut "Chat timed out"
          "The chat did not complete within 3 seconds." 3 ∧
    (∃ a b, timeoutSuggestion 3 = a ++ toString 3 ++ b) ∧
    ∀ m r p, chat_completions submitOk (fun _ => pendingResp) 3 10 2
      ≠ ChatOutcome.apiError m r p :=
  chat_completions_times_out submitOk (fun _ => pendingResp) 3 10 2
    ⟨rfl, rfl⟩ (fun _ => ⟨rfl, rfl⟩)

/-- C7: if, after any number of pending responses, a final poll response
arrives whose `user_answer` is absent or empty (its extracted value is
falsy), the generator completes with zero chunks and no error. -/
theorem chat_completions_final_empty
    (submitResp : PyVal) (poll : Nat → PyVal)
    (timeout maxRetries initialDelay m : Nat) (ans : PyVal)
    (hsub : submitAccepted submitResp)
    (hpend : ∀ j, j < m → isPending (poll j))
    (hfin : isFinalWith (poll m) ans)
    (hempty : truthy ans = false)
    (hmt : m < timeout) :
    chat_completions submitResp poll timeout maxRetries initialDelay
      = ChatOutcome.chunks [] (m + 1) := by
  rw [chat_completions_poll submitResp poll timeout maxRetries initialDelay hsub]
  rw [pollLoop_pendingSteps poll maxRetries (timeoutSuggestion timeout) m timeout 0 0
    (fun j hj => by simpa using hpend j hj) (by omega)]
  obtain ⟨f, hf⟩ : ∃ f, timeout - m = f + 1 := ⟨timeout - m - 1, by omega⟩
  rw [hf]
  rw [pollLoop_final_empty poll maxRetries (timeoutSuggestion timeout) f 0 (0 + m)
    ans (by simpa using hfin) hempty]
  simp

theorem chat_completions_final_empty_witness :
    chat_completions submitOk (fun i => if i = 0 then pendingResp else finalEmptyResp)
      300 10 2
      = ChatOutcome.chunks [] 2 :=
  chat_completions_final_empty submitOk
    (fun i => if i = 0 then pendingResp else finalEmptyResp) 300 10 2 1
    (PyVal.str "")
    ⟨rfl, rfl⟩
    (fun j hj => by
      match j, hj with
      | 0, _ => exact ⟨rfl, rfl⟩)
    ⟨rfl, rfl, rfl⟩
    (by decide) (by omega)

/-- C8: `chat_async` returns the in-order concatenation of the chunks
produced by `chat_completions`; in the spec's end-to-end scenario
(submit gives `conv_id "c1"`, first poll pending, second poll final with
`user_answer "Hello!"`) the generator yields the single chunk
`"Hello!"` after two polls and `chat_async` returns the literal string
`"Hello!"`. -/
theorem chat_async_joins_chunks :
    (∀ (submitResp : PyVal) (poll : Nat → PyVal) (timeout : Nat)
        (ys : List PyVal) (n : Nat),
      chat_completions submitResp poll timeout 10 2 = ChatOutcome.chunks ys n →
      chat_async submitResp poll timeout = joinChunks ys) ∧
    chat_completions submitOk pollHello 300 10 2
      = ChatOutcome.chunks [PyVal.str "Hello!"] 2 ∧
    chat_async submitOk pollHello 300 = AsyncOutcome.ok "Hello!" := by
  refine ⟨?_, rfl, rfl⟩
  intro submitResp poll timeout ys n h
  unfold chat_async
  rw [h]

theorem chat_async_joins_chunks_witness :
    chat_async submitOk pollHello 300 = joinChunks [PyVal.str "Hello!"] :=
  chat_async_joins_chunks.1 submitOk pollHello 300 [PyVal.str "Hello!"] 2 rfl

/-- C4 counterexample: at concrete inputs, a connection-level failure, a
non-2xx status and an invalid-JSON 2xx body all raise the one `APIError`
class — the code has no distinct `NetworkError`, `ProtocolError` or
`DecodeError` types, so the three failures are not distinct typed
failures as the claim states. -/
theorem make_request_single_error_class :
    make_request (TransportOutcome.requestError "connection refused")
      = Except.error (OpenDeriskErr.apiError "Network error" Option.none
          (PyVal.dict []) (some "connection refused")
          (some "Check your network connection and try again")) ∧
    make_request (TransportOutcome.got ⟨500, "oops", Option.none, "Server error 500"⟩)
      = Except.error (OpenDeriskErr.apiError "API request failed: 500" (some 500)
          (PyVal.dict [("text", PyVal.str "oops")]) (some "Server error 500")
          (some "Check your request parameters and try again")) ∧
    make_request (TransportOutcome.got ⟨200, "not json", Option.none, ""⟩)
      = Except.error (OpenDeriskErr.apiError "Server returned invalid JSON response"
          Option.none (PyVal.dict [])
          (some ("Response content: " ++ String.take "not json" 200))
          (some "Please check if the server is running properly")) ∧
    isApiErrorExc (OpenDeriskErr.apiError "Network error" Option.none
        (PyVal.dict []) (some "connection refused")
        (some "Check your network connection and try again")) = true ∧
    isApiErrorExc (OpenDeriskErr.apiError "API request failed: 500" (some 500)
        (PyVal.dict [("text", PyVal.str "oops")]) (some "Server error 500")
        (some "Check your request parameters and try again")) = true ∧
    isApiErrorExc (OpenDeriskErr.apiError "Server returned invalid JSON response"
        Option.none (PyVal.dict [])
        (some ("Response content: " ++ String.take "not json" 200))
        (some "Please check if the server is running properly")) = true :=
  ⟨rfl, rfl, rfl, rfl, rfl, rfl⟩

/-- C4 amended: the three transport failure cases each raise the single
`APIError` class, distinguished by contents, not by type: connection
failure gives message "Network error"; any non-2xx status (1xx and 3xx
included, redirects are not followed) gives a message naming the status,
the status code, and the best-effort parsed JSON body falling back to
`{"text": raw}`; an unparsable non-empty 2xx body gives message
"Server returned invalid JSON response"; a parsable 2xx body is returned
as the result. -/
theorem make_request_cases (errText : String) (r : HttpResponse) :
    (make_request (TransportOutcome.requestError errText)
      = Except.error (OpenDeriskErr.apiError "Network error" Option.none
          (PyVal.dict []) (some errText)
          (some "Check your network connection and try again"))) ∧
    (r.status < 200 ∨ 300 ≤ r.status →
      make_request (TransportOutcome.got r)
        = Except.error (OpenDeriskErr.apiError
            ("API request failed: " ++ toString r.status) (some r.status)
            (safe_parse_json r) (some r.statusErrText)
            (some "Check your request parameters and try again"))) ∧
    (200 ≤ r.status ∧ r.status < 300 → r.text ≠ "" → r.parsed = Option.none →
      make_request (TransportOutcome.got r)
        = Except.error (OpenDeriskErr.apiError
            "Server returned invalid JSON response" Option.none (PyVal.dict [])
            (some ("Response content: " ++ String.take r.text 200))
            (some "Please check if the server is running properly"))) ∧
    (200 ≤ r.status ∧ r.status < 300 → r.text ≠ "" → ∀ v, r.parsed = some v →
      make_request (TransportOutcome.got r) = Except.ok v) ∧
    (∀ e, make_request (TransportOutcome.got r) = Except.error e →
      isApiErrorExc e = true) := by
  refine ⟨rfl, ?_, ?_, ?_, ?_⟩
  · intro h
    simp only [make_request]
    rw [if_pos h]
  · intro h1 h2 h3
    have hc : ¬ (r.status < 200 ∨ 300 ≤ r.status) := by omega
    simp [make_request, hc, h2, h3]
  · intro h1 h2 v h3
    have hc : ¬ (r.status < 200 ∨ 300 ≤ r.status) := by omega
    simp [make_request, hc, h2, h3]
  · intro e he
    simp only [make_request] at he
    by_cases h1 : r.status < 200 ∨ 300 ≤ r.status
    · rw [if_pos h1] at he
      cases he
      rfl
    · rw [if_neg h1] at he
      by_cases h2 : r.text = ""
      · rw [if_pos h2] at he
        exact Except.noConfusion he
      · rw [if_neg h2] at he
        cases h3 : r.parsed with
        | some v => rw [h3] at he; exact Except.noConfusion he
        | none => rw [h3] at he; cases he; rfl

theorem make_request_cases_witness :
    make_request (TransportOutcome.requestError "refused")
      = Except.error (OpenDeriskErr.apiError "Network error" Option.none
          (PyVal.dict []) (some "refused")
          (some "Check your network connection and try again")) ∧
    make_request (TransportOutcome.got ⟨404, "nf", Option.none, "Client error 404"⟩)
      = Except.error (OpenDeriskErr.apiError "API request failed: 404" (some 404)
          (safe_parse_json ⟨404, "nf", Option.none, "Client error 404"⟩)
          (some "Client error 404")
          (some "Check your request parameters and try again")) ∧
    make_request (TransportOutcome.got ⟨302, "", Option.none, "Redirect response 302"⟩)
      = Except.error (OpenDeriskErr.apiError "API request failed: 302" (some 302)
          (safe_parse_json ⟨302, "", Option.none, "Redirect response 302"⟩)
          (some "Redirect response 302")
          (some "Check your request parameters and try again")) ∧
    make_request (TransportOutcome.got ⟨200, "garbage", Option.none, ""⟩)
      = Except.error (OpenDeriskErr.apiError
          "Server returned invalid JSON response" Option.none (PyVal.dict [])
          (some ("Response content: " ++ String.take "garbage" 200))
          (some "Please check if the server is running properly")) ∧
    make_request (TransportOutcome.got
        ⟨200, "ok", some (PyVal.dict [("success", PyVal.bool true)]), ""⟩)
      = Except.ok (PyVal.dict [("success", PyVal.bool true)]) :=
  ⟨(make_request_cases "refused" ⟨404, "nf", Option.none, "Client error 404"⟩).1,
   (make_request_cases "refused"
      ⟨404, "nf", Option.none, "Client error 404"⟩).2.1 (by decide),
   (make_request_cases "refused"
      ⟨302, "", Option.none, "Redirect response 302"⟩).2.1 (by decide),
   (make_request_cases "refused"
      ⟨200, "garbage", Option.none, ""⟩).2.2.1 (by decide) (by decide) rfl,
   (make_request_cases "refused"
      ⟨200, "ok", some (PyVal.dict [("success", PyVal.bool true)]), ""⟩).2.2.2.1
      (by decide) (by decide) (PyVal.dict [("success", PyVal.bool true)]) rfl⟩

theorem PyVal.beq_str (a b : String) :
    PyVal.beq (PyVal.str a) (PyVal.str b) = (a == b) := by
  rw [PyVal.beq]

/-- C5 counterexample: on the concrete failure response
`{"success": false, "err_msg": "boom"}` the facade operation
`list_conversations` returns the empty list — a normal return, not a
raised `ApiError` as the claim states (and `list_models` behaves the
same way). -/
theorem list_conversations_failure_returns_empty :
    list_conversations failResp = [] ∧ list_models failResp = [] :=
  ⟨rfl, rfl⟩

/-- C5 amended: a `success:false` response makes `chat_completions`
raise `APIError` (both at submission and, for a non-transient code, at
polling); `delete_conversation` and `stop_chat` return the raw `success`
flag (`False` on server-reported failure) without raising; and
`list_conversations` and `list_models` return the empty list without
raising. -/
theorem facade_failure_behavior (resp : PyVal) (poll : Nat → PyVal)
    (timeout maxRetries initialDelay : Nat) :
    (truthy (pyGet resp "success" PyVal.none) = false →
      chat_completions resp poll timeout maxRetries initialDelay
        = ChatOutcome.apiError "Failed to submit chat" resp 0 ∧
      list_conversations resp = [] ∧ list_models resp = []) ∧
    delete_conversation resp = pyGet resp "success" (PyVal.bool false) ∧
    stop_chat resp = pyGet resp "success" (PyVal.bool false) ∧
    (pyGet resp "success" (PyVal.bool false) = PyVal.bool false →
      delete_conversation resp = PyVal.bool false ∧
      stop_chat resp = PyVal.bool false) ∧
    (submitAccepted resp → 0 < timeout →
      truthy (pyGet (poll 0) "success" PyVal.none) = false →
      pyEqStr (pyGet (poll 0) "code" (PyVal.str "")) "E0103" = false →
      chat_completions resp poll timeout maxRetries initialDelay
        = ChatOutcome.apiError "Failed to query chat status" (poll 0) 1) := by
  refine ⟨?_, rfl, rfl, ?_, ?_⟩
  · intro h
    refine ⟨?_, ?_, ?_⟩
    · simp [chat_completions, h]
    · simp [list_conversations, h]
    · simp [list_models, h]
  · intro h
    exact ⟨h, h⟩
  · intro hsub hto hs hc
    rw [chat_completions_poll resp poll timeout maxRetries initialDelay hsub]
    have hres := pollLoop_fail poll maxRetries (timeoutSuggestion timeout)
      (timeout - 1) 0 0 hs (Or.inl hc)
    have hft : timeout - 1 + 1 = timeout := by omega
    rw [hft] at hres
    simpa using hres

theorem facade_failure_behavior_witness :
    chat_completions failResp (fun _ => pendingResp) 300 10 2
      = ChatOutcome.apiError "Failed to submit chat" failResp 0 ∧
    list_conversations failResp = [] ∧
    list_models failResp = [] ∧
    delete_conversation failResp = PyVal.bool false ∧
    stop_chat failResp = PyVal.bool false ∧
    chat_completions submitOk (fun _ => failResp) 300 10 2
      = ChatOutcome.apiError "Failed to query chat status" failResp 1 :=
  ⟨((facade_failure_behavior failResp (fun _ => pendingResp) 300 10 2).1 rfl).1,
   ((facade_failure_behavior failResp (fun _ => pendingResp) 300 10 2).1 rfl).2.1,
   ((facade_failure_behavior failResp (fun _ => pendingResp) 300 10 2).1 rfl).2.2,
   ((facade_failure_behavior failResp (fun _ => pendingResp) 300 10 2).2.2.2.1 rfl).1,
   ((facade_failure_behavior failResp (fun _ => pendingResp) 300 10 2).2.2.2.1 rfl).2,
   (facade_failure_behavior submitOk (fun _ => failResp) 300 10 2).2.2.2.2
     ⟨rfl, rfl⟩ (by omega) rfl rfl⟩

/-- C6 counterexample: the request constructed by `chat_completions` from
the concrete call with text `"hi"`, a messages list and
`max_new_tokens = -5` has both content sources populated and a negative
`max_new_tokens`, so the claimed invariant fails on a request the client
constructs and submits. -/
theorem chat_request_invariant_fails :
    ¬ requestClaimInvariant reqBoth ∧
    reqBoth.user_input = "hi" ∧
    reqBoth.messages = some [msgHi] ∧
    reqBoth.max_new_tokens = some (-5) ∧
    ((-5 : Int) < 0) := by
  refine ⟨?_, rfl, rfl, rfl, by omega⟩
  intro h
  obtain ⟨h1, _⟩ := h
  rcases h1 with ⟨_, hm⟩ | ⟨hu, _⟩
  · exact Option.noConfusion (show some [msgHi] = Option.none from hm)
  · exact absurd (show "hi" = "" from hu) (by decide)

/-- C6 amended: the client forwards `user_input`, `messages` and
`max_new_tokens` unchanged (and always sets `work_mode = "async"`), so
the constructed request has exactly one populated content source
precisely when the caller supplies exactly one of a non-empty text or a
messages list, and `max_new_tokens` may be any integer the caller
passes: no exclusivity or non-negativity validation is performed. -/
theorem chat_request_fields_forwarded (ui : String)
    (cu ac mn : Option String) (tp : Option Rat) (mt : Option Int)
    (inc : Bool) (un : Option String) (ms : Option (List PyVal)) :
    (buildChatRequest ui cu ac mn tp mt inc un ms).user_input = ui ∧
    (buildChatRequest ui cu ac mn tp mt inc un ms).messages = ms ∧
    (buildChatRequest ui cu ac mn tp mt inc un ms).max_new_tokens = mt ∧
    (buildChatRequest ui cu ac mn tp mt inc un ms).work_mode = some "async" ∧
    (populatedExactlyOne (buildChatRequest ui cu ac mn tp mt inc un ms) ↔
      ((ui ≠ "" ∧ ms = Option.none) ∨ (ui = "" ∧ ms ≠ Option.none))) :=
  ⟨rfl, rfl, rfl, rfl, Iff.rfl⟩

/-- The code loop of `list_models` computes, over any seen set, the
spec's filter-then-dedup-by-first-name, provided every healthy item has
a truthy `model_name`. -/
theorem listModelsLoop_spec :
    ∀ (items : List PyVal) (seen : List PyVal),
      (∀ it ∈ items, truthy (pyGet it "healthy" PyVal.none) = true →
        truthy (pyGet it "model_name" PyVal.none) = true) →
      listModelsLoop items seen
        = dedupFirstByName
            (items.filter (fun it => truthy (pyGet it "healthy" PyVal.none))) seen := by
  intro items
  induction items with
  | nil => intro seen _; rfl
  | cons item rest ih =>
      intro seen h
      have hrest : ∀ it ∈ rest, truthy (pyGet it "healthy" PyVal.none) = true →
          truthy (pyGet it "model_name" PyVal.none) = true :=
        fun it hit => h it (List.mem_cons_of_mem item hit)
      by_cases hh : truthy (pyGet item "healthy" PyVal.none) = true
      · have hname := h item (List.mem_cons_self item rest) hh
        by_cases hm : pyMem (pyGet item "model_name" PyVal.none) seen = true
        · simp only [listModelsLoop, hh, if_true, hname, true_and,
            List.filter_cons, dedupFirstByName, hm, if_false]
          simp only [hm, Bool.true_eq_false, and_false, if_false]
          exact ih seen hrest
        · have hm' : pyMem (pyGet item "model_name" PyVal.none) seen = false := by
            revert hm
            cases pyMem (pyGet item "model_name" PyVal.none) seen <;> simp
          simp only [listModelsLoop, hh, if_true, hname, hm', and_self,
            List.filter_cons, dedupFirstByName, hm']
          simp only [Bool.false_eq_true, if_false, if_true]
          exact congrArg _ (ih _ hrest)
      · have hh' : truthy (pyGet item "healthy" PyVal.none) = false := by
          revert hh
          cases truthy (pyGet item "healthy" PyVal.none) <;> simp
        simp only [listModelsLoop, hh', Bool.false_eq_true, if_false,
          List.filter_cons, hh']
        exact ih seen hrest

/-- C9: on a successful response whose data is a non-empty feed in which
every healthy entry has a truthy `model_name`, `list_models` returns
exactly the healthy entries deduplicated by `model_name`, keeping for
each name the first occurrence in server-returned order. -/
theorem list_models_healthy_dedup (resp : PyVal) (items : List PyVal)
    (hs : truthy (pyGet resp "success" PyVal.none) = true)
    (hd : pyGet resp "data" PyVal.none = PyVal.list items)
    (hne : items ≠ [])
    (hnames : ∀ it ∈ items, truthy (pyGet it "healthy" PyVal.none) = true →
      truthy (pyGet it "model_name" PyVal.none) = true) :
    list_models resp = specHealthyModels items := by
  have hdt : truthy (pyGet resp "data" PyVal.none) = true := by
    rw [hd]
    simp [truthy, hne]
  rw [list_models, if_pos ⟨hs, hdt⟩, hd]
  exact listModelsLoop_spec items [] hnames

theorem list_models_healthy_dedup_witness :
    list_models modelsResp = specHealthyModels [modelA, modelB] ∧
    specHealthyModels [modelA, modelB] = [modelA] := by
  constructor
  · apply list_models_healthy_dedup modelsResp [modelA, modelB] rfl rfl
      (by simp)
    intro it hit _
    simp only [List.mem_cons, List.not_mem_nil, or_false] at hit
    rcases hit with rfl | rfl
    · rfl
    · rfl
  · rfl

/-- C10: the submitted payload's `user_name` is `user_name or
"cli_user"`: the literal `"cli_user"` when the caller passes `None` or
an empty string, the caller's value unchanged otherwise — and it is
never empty, so the payload is never anonymous. -/
theorem chat_payload_user_name (ui : String)
    (cu ac mn : Option String) (tp : Option Rat) (mt : Option Int)
    (inc : Bool) (un : Option String) (ms : Option (List PyVal)) :
    pyGet (modelDump (buildChatRequest ui cu ac mn tp mt inc un ms))
        "user_name" PyVal.none = PyVal.str (pyOrStr un "cli_user") ∧
    pyOrStr Option.none "cli_user" = "cli_user" ∧
    pyOrStr (some "") "cli_user" = "cli_user" ∧
    (∀ s, s ≠ "" → pyOrStr (some s) "cli_user" = s) ∧
    pyOrStr un "cli_user" ≠ "" := by
  refine ⟨?_, rfl, rfl, ?_, ?_⟩
  · cases cu <;> cases ms <;> cases ac <;> cases mn <;> cases tp <;> cases mt <;> rfl
  · intro s hs
    simp [pyOrStr, hs]
  · cases un with
    | none => simp [pyOrStr]
    | some s =>
        by_cases hs : s = ""
        · simp [pyOrStr, hs]
        · simp [pyOrStr, hs]

theorem chat_payload_user_name_witness :
    pyGet (modelDump (buildChatRequest "hi" Option.none Option.none Option.none
        Option.none Option.none true Option.none Option.none))
        "user_name" PyVal.none = PyVal.str (pyOrStr Option.none "cli_user") ∧
    pyGet (modelDump (buildChatRequest "hi" Option.none Option.none Option.none
        Option.none Option.none true (some "alice") Option.none))
        "user_name" PyVal.none = PyVal.str (pyOrStr (some "alice") "cli_user") ∧
    pyOrStr (some "alice") "cli_user" = "alice" ∧
    pyOrStr (some "") "cli_user" = "cli_user" :=
  ⟨(chat_payload_user_name "hi" Option.none Option.none Option.none
      Option.none Option.none true Option.none Option.none).1,
   (chat_payload_user_name "hi" Option.none Option.none Option.none
      Option.none Option.none true (some "alice") Option.none).1,
   (chat_payload_user_name "hi" Option.none Option.none Option.none
      Option.none Option.none true (some "alice") Option.none).2.2.2.1
     "alice" (by decide),
   (chat_payload_user_name "hi" Option.none Option.none Option.none
      Option.none Option.none true (some "") Option.none).2.2.1⟩
